import Mathlib

/-!
Verification development for the guppshupp-ai repository.

The Python sources (src/memory/conversation.py, src/personality/engine.py,
src/llm/client.py, src/app.py) are shallowly embedded below: pure functions
become Lean functions, the network call inside the LLM client is abstracted
by an explicit outcome value passed to the function, and the orchestrator is
parameterised by the availability flag and the generation function it calls.
Python-specific primitives (negative-index slicing, str.split, str.strip,
str.capitalize, truthiness of strings and lists) are modelled explicitly so
that their edge cases are preserved.
-/

namespace GuppShupp

/-- Model of the Python slice `l[-k:]` for a natural k.  For k ≥ 1 this is
the last k elements (all of them when the list is shorter); for k = 0 the
Python index is `-0 = 0`, so the slice is the whole list. -/
def pyTakeLast (k : Nat) (l : List α) : List α :=
  if k = 0 then l else l.drop (l.length - k)

/-- Genuinely the last k elements of a list (all of them when the list is
shorter than k). -/
def lastN (k : Nat) (l : List α) : List α :=
  l.drop (l.length - k)

/-- Characters treated as whitespace by Python str.split and str.strip
(ASCII fragment; the sources only ever contain ASCII whitespace). -/
def isPySpace (c : Char) : Bool :=
  c = ' ' || c = '\t' || c = '\n' || c = '\r' || c = '\x0b' || c = '\x0c'

/-- Accumulating worker for pySplit: first argument is the remaining
characters, second the characters of the current token, reversed. -/
def pySplitAux : List Char → List Char → List String
  | [], acc => if acc = [] then [] else [String.mk acc.reverse]
  | c :: cs, acc =>
      if isPySpace c then
        if acc = [] then pySplitAux cs []
        else String.mk acc.reverse :: pySplitAux cs []
      else pySplitAux cs (c :: acc)

/-- Model of Python `s.split()` with no argument: split on runs of
whitespace, discarding empty pieces. -/
def pySplit (s : String) : List String :=
  pySplitAux s.toList []

/-- Model of Python `s.lower()` (ASCII fragment: Char.toLower lowers the
letters A-Z and leaves every other character unchanged, which agrees with
Python on all strings occurring in this development). -/
def pyToLower (s : String) : String :=
  String.mk (s.toList.map Char.toLower)

/-- Model of Python `s.strip()`: remove leading and trailing whitespace. -/
def pyStrip (s : String) : String :=
  String.mk (((s.toList.dropWhile isPySpace).reverse.dropWhile isPySpace).reverse)

/-- Model of Python `s.capitalize()`: first character uppercased, the rest
lowercased. -/
def pyCapitalize (s : String) : String :=
  match s.toList with
  | [] => ""
  | c :: cs => String.mk (c.toUpper :: cs.map Char.toLower)

/-- Boolean prefix test on character lists. -/
def isPrefixChars : List Char → List Char → Bool
  | [], _ => true
  | _ :: _, [] => false
  | p :: ps, c :: cs => p = c && isPrefixChars ps cs

/-- Boolean infix test on character lists: a prefix check at every
position. -/
def containsChars (pat : List Char) : List Char → Bool
  | [] => isPrefixChars pat []
  | c :: cs => isPrefixChars pat (c :: cs) || containsChars pat cs

/-- Model of Python `pat in s` substring containment. -/
def strContains (s pat : String) : Bool :=
  containsChars pat.toList s.toList

/-! ## src/memory/conversation.py -/

/-- A conversation entry as built by ConversationMemory.add_message:
role, content and the timestamp string produced by datetime.now().
The clock is passed explicitly in this embedding. -/
structure Message where
  role : String
  content : String
  timestamp : String
deriving DecidableEq

/-- State of ConversationMemory: the configured bound and the history list. -/
structure ConversationMemory where
  max_history : Nat
  history : List Message
deriving DecidableEq

/-- ConversationMemory.add_message: append the new entry, then, when the
length exceeds max_history, keep `history[-max_history:]` (note the Python
slice: with max_history = 0 this keeps the whole list). -/
def ConversationMemory.add_message (m : ConversationMemory)
    (role content timestamp : String) : ConversationMemory :=
  let h := m.history ++ [Message.mk role content timestamp]
  { m with history := if m.max_history < h.length then pyTakeLast m.max_history h else h }

/-- Format of one context line built in the loop of get_context. -/
def fmtMessage (msg : Message) : String :=
  pyCapitalize msg.role ++ ": " ++ msg.content

/-- ConversationMemory.get_context: `history[-num_messages:] if history else []`,
each entry rendered as "<capitalized role>: <content>", joined by newlines. -/
def ConversationMemory.get_context (m : ConversationMemory) (num_messages : Nat) : String :=
  let recent := if m.history.isEmpty then [] else pyTakeLast num_messages m.history
  String.intercalate "\n" (recent.map fmtMessage)

/-- ConversationMemory.extract_topics: collect, over user-role messages in
order, the whitespace tokens of the lowercased content that are longer than
5 characters; then `list(set(topics))[:5]`.  Python set iteration order is
unspecified, so the dedup is modelled as keeping one occurrence of each
token (List.dedup); every claim proved about it is order-insensitive. -/
def ConversationMemory.extract_topics (m : ConversationMemory) : List String :=
  let topics := m.history.foldl
    (fun acc msg =>
      if msg.role = "user"
      then acc ++ (pySplit (pyToLower msg.content)).filter (fun w => 5 < w.length)
      else acc) []
  topics.dedup.take 5

/-- Build a Message from a (role, content, timestamp) triple. -/
def mkMessage (x : String × String × String) : Message :=
  Message.mk x.1 x.2.1 x.2.2

/-- Apply a sequence of add_message calls, oldest first. -/
def addAll (m : ConversationMemory) (msgs : List (String × String × String)) :
    ConversationMemory :=
  msgs.foldl (fun acc x => acc.add_message x.1 x.2.1 x.2.2) m

/-! ## src/personality/engine.py -/

/-- The PersonalityTone enum. -/
inductive PersonalityTone where
  | friendly
  | professional
  | casual
  | empathetic
  | enthusiastic
deriving DecidableEq

/-- A per-tone trait record (the dict values of _get_traits).  The source
keys named prefix and suffix are rendered prefixText and suffixText here. -/
structure Traits where
  style : String
  greeting : String
  prefixText : String
  suffixText : String
deriving DecidableEq

/-- PersonalityEngine._get_traits: the fixed trait table.  The source keys
the table by the enum itself, so the dict .get default branch is
unreachable and the lookup is total. -/
def get_traits : PersonalityTone → Traits
  | PersonalityTone.friendly =>
      Traits.mk "warm and approachable" "Hey there!" "I\x27d be happy to help! " " 😊"
  | PersonalityTone.professional =>
      Traits.mk "formal and precise" "Hello," "Certainly. " ""
  | PersonalityTone.casual =>
      Traits.mk "relaxed and informal" "Hey!" "Sure thing! " " 👍"
  | PersonalityTone.empathetic =>
      Traits.mk "understanding and supportive" "Hello friend," "I understand. " " 💙"
  | PersonalityTone.enthusiastic =>
      Traits.mk "energetic and excited" "Hi there!" "Awesome question! " " ✨"

/-- The .value string of each PersonalityTone enum member. -/
def toneValue : PersonalityTone → String
  | PersonalityTone.friendly => "friendly"
  | PersonalityTone.professional => "professional"
  | PersonalityTone.casual => "casual"
  | PersonalityTone.empathetic => "empathetic"
  | PersonalityTone.enthusiastic => "enthusiastic"

/-- PersonalityEngine.apply_tone. -/
def apply_tone (tone : PersonalityTone) (response : String) (isGreeting : Bool) : String :=
  if isGreeting then (get_traits tone).greeting ++ " " ++ response
  else if pyStrip response = "" then response
  else (get_traits tone).prefixText ++ response ++ (get_traits tone).suffixText

/-- PersonalityEngine.get_system_prompt. -/
def get_system_prompt (tone : PersonalityTone) : String :=
  "You are a " ++ (get_traits tone).style ++ " AI companion. Respond in a "
    ++ toneValue tone ++ " manner."

/-- The PersonalityTone constructor on value strings: some member whose
.value equals the argument, else none (a ValueError in the source). -/
def parseToneEnum (s : String) : Option PersonalityTone :=
  if s = "friendly" then some PersonalityTone.friendly
  else if s = "professional" then some PersonalityTone.professional
  else if s = "casual" then some PersonalityTone.casual
  else if s = "empathetic" then some PersonalityTone.empathetic
  else if s = "enthusiastic" then some PersonalityTone.enthusiastic
  else none

/-- create_personality: PersonalityTone(tone.lower()), with the ValueError
branch falling back to FRIENDLY. -/
def create_personality (tone : String) : PersonalityTone :=
  (parseToneEnum (pyToLower tone)).getD PersonalityTone.friendly

/-- The closed set of tone names as written in the specification. -/
def toneNames : List String :=
  ["friendly", "professional", "casual", "empathetic", "enthusiastic"]

/-! ## src/llm/client.py -/

/-- Outcome of the POST /api/generate request, supplied to the embedded
generate as an explicit value: either the request returned with a status
code and a JSON body (some (optional response field) when .json()
succeeds, none when .json() raises), or it raised a ConnectionError, or
it raised some other exception. -/
inductive GenOutcome where
  | response (status : Nat) (jsonField : Option (Option String))
  | connectionError
  | otherException
deriving DecidableEq

/-- Outcome of the GET /api/tags health request. -/
inductive HealthOutcome where
  | response (status : Nat)
  | exception
deriving DecidableEq

/-- The lead sentence of each mock personality (the bases dict in
mock_response); any key outside the dict falls back to the friendly entry
via dict.get. -/
def mockBase (personality : String) : String :=
  if personality = "professional" then
    "Here is a concise and structured response to your request."
  else if personality = "empathetic" then
    "I understand what you’re asking. Let’s take this step by step."
  else if personality = "casual" then
    "No worries — here’s a quick tip to keep things rolling."
  else if personality = "enthusiastic" then
    "Awesome! Let’s dive in with a quick, helpful pointer."
  else "Sure! 😊 Here’s a simple suggestion to help you move forward."

/-- The keyword scan at the top of mock_response: first match in the
lowercased context wins, else friendly. -/
def detectPersonality (context : Option String) : String :=
  let ctx := pyToLower (context.getD "")
  if strContains ctx "professional" then "professional"
  else if strContains ctx "empathetic" then "empathetic"
  else if strContains ctx "casual" then "casual"
  else if strContains ctx "enthusiastic" then "enthusiastic"
  else "friendly"

/-- The fixed marker appended to every mock response. -/
def fallbackMarker : String := "(Mock response — generated without a live LLM.)"

/-- OllamaClient.mock_response.  The prompt parameter is accepted and
ignored, exactly as in the source. -/
def mock_response (prompt : String) (context : Option String) : String :=
  mockBase (detectPersonality context) ++ " " ++ fallbackMarker

/-- The full_prompt built inside OllamaClient.generate and sent in the
request body (the network outcome itself is abstracted by GenOutcome). -/
def full_prompt (prompt : String) (context : Option String) : String :=
  match context with
  | some c => if c = "" then prompt else c ++ "\n\n" ++ prompt
  | none => prompt

/-- OllamaClient.generate: on status 200 return the response field (empty
string when absent); on any other status, a ConnectionError, or any other
exception (including a failing .json()), return mock_response(prompt) --
note the context is not forwarded to mock_response. -/
def generate (prompt : String) (context : Option String) (outcome : GenOutcome) : String :=
  match outcome with
  | GenOutcome.response status jsonField =>
      if status = 200 then
        match jsonField with
        | some field => field.getD ""
        | none => mock_response prompt none
      else mock_response prompt none
  | GenOutcome.connectionError => mock_response prompt none
  | GenOutcome.otherException => mock_response prompt none

/-- Outcomes on which generate takes its fallback path. -/
def fallsBack : GenOutcome → Bool
  | GenOutcome.response status (some _) => if status = 200 then false else true
  | GenOutcome.response _ none => true
  | GenOutcome.connectionError => true
  | GenOutcome.otherException => true

/-- OllamaClient.is_available: status 200 means true, any other status or
any exception means false. -/
def is_available : HealthOutcome → Bool
  | HealthOutcome.response status => decide (status = 200)
  | HealthOutcome.exception => false

/-- Modelled from the spec wording: a success status is one of the HTTP
2xx success class (the spec says the health check expects any success
status). -/
def isSuccessStatus (status : Nat) : Bool :=
  decide (200 ≤ status) && decide (status < 300)

/-! ## src/app.py -/

/-- The placeholder text used by generate_response when is_available() is
false. -/
def demoResponse : String :=
  "This is a demo response. Connect to Ollama for real AI interactions!"

/-- app.generate_response, parameterised by the availability flag returned
by is_available() and by the client generate call (a function of prompt
and context). -/
def generate_response (tone : PersonalityTone) (mem : ConversationMemory)
    (available : Bool) (llmGen : String → String → String) (prompt : String) : String :=
  let context := mem.get_context 5
  let system_prompt := get_system_prompt tone
  let full_context :=
    if context = "" then system_prompt
    else system_prompt ++ "\n\nRecent conversation:\n" ++ context
  let response := if available then llmGen prompt full_context else demoResponse
  apply_tone tone response false

/-- One user turn of app.main: append the raw user message to memory, run
generate_response, append the styled assistant message, and return the
styled response together with the final memory. -/
def mainTurn (tone : PersonalityTone) (mem : ConversationMemory) (available : Bool)
    (llmGen : String → String → String) (prompt ts1 ts2 : String) :
    String × ConversationMemory :=
  let mem1 := mem.add_message "user" prompt ts1
  let response := generate_response tone mem1 available llmGen prompt
  (response, mem1.add_message "assistant" response ts2)

/-! ## Helper lemmas -/

/-- With no context supplied, mock_response is the fixed friendly sentence
followed by the marker. -/
theorem mock_response_none (prompt : String) :
    mock_response prompt none =
      "Sure! 😊 Here’s a simple suggestion to help you move forward. (Mock response — generated without a live LLM.)" := rfl

/-- On every fallback outcome, generate returns mock_response of the prompt
with no context. -/
theorem generate_fallback (prompt : String) (context : Option String) (o : GenOutcome)
    (h : fallsBack o = true) : generate prompt context o = mock_response prompt none := by
  cases o with
  | response status jsonField =>
    cases jsonField with
    | some field =>
      by_cases hs : status = 200
      · subst hs; simp [fallsBack] at h
      · simp [generate, hs]
    | none =>
      by_cases hs : status = 200 <;> simp [generate, hs]
  | connectionError => rfl
  | otherException => rfl

/-! ## Theorems for the claims -/

/-- C1: the claim says the fallback text of generate is selected by
scanning the supplied context for tone keywords.  It is not: generate
never forwards the context to mock_response.  Counterexample: a fallback
generate call whose context contains the keyword "professional" does not
return the professional lead sentence, although mock_response applied to
that same context would. -/
theorem c1_counterexample :
    strContains
      (pyToLower "You are a formal and precise AI companion. Respond in a professional manner.")
      "professional" = true ∧
    generate "Help me draft an email."
      (some "You are a formal and precise AI companion. Respond in a professional manner.")
      GenOutcome.connectionError ≠
      "Here is a concise and structured response to your request. (Mock response — generated without a live LLM.)" ∧
    mock_response "Help me draft an email."
      (some "You are a formal and precise AI companion. Respond in a professional manner.") =
      "Here is a concise and structured response to your request. (Mock response — generated without a live LLM.)" :=
  ⟨by decide, by decide, by decide⟩

/-- C1 (amended): when the backend call in generate fails (connection
error, non-success status, or any other exception), the returned mock text
is always the friendly lead sentence followed by the fallback marker, for
every prompt and every supplied context, because generate invokes
mock_response with the prompt only and never forwards the context. -/
theorem c1_theorem (prompt : String) (context : Option String) (o : GenOutcome)
    (h : fallsBack o = true) :
    generate prompt context o =
      "Sure! 😊 Here’s a simple suggestion to help you move forward. (Mock response — generated without a live LLM.)" := by
  rw [generate_fallback prompt context o h, mock_response_none prompt]

/-- C1 witness: a concrete fallback call with a professional-keyword
context still returns the friendly mock sentence. -/
theorem c1_witness :
    fallsBack GenOutcome.connectionError = true ∧
    generate "Help me draft an email."
      (some "You are a formal and precise AI companion. Respond in a professional manner.")
      GenOutcome.connectionError =
      "Sure! 😊 Here’s a simple suggestion to help you move forward. (Mock response — generated without a live LLM.)" :=
  ⟨rfl, c1_theorem "Help me draft an email."
    (some "You are a formal and precise AI companion. Respond in a professional manner.")
    GenOutcome.connectionError rfl⟩

/-- C10: whenever generate takes the fallback path its return value is one
and the same fixed string — the friendly lead sentence followed by the
fallback marker — because generate invokes mock_response with the prompt
only; in particular the result does not depend on the supplied context. -/
theorem c10_theorem (prompt : String) (context : Option String) (o : GenOutcome)
    (h : fallsBack o = true) :
    generate prompt context o = mock_response prompt none ∧
    (∀ context2 : Option String, generate prompt context2 o = generate prompt context o) ∧
    mock_response prompt none =
      "Sure! 😊 Here’s a simple suggestion to help you move forward. (Mock response — generated without a live LLM.)" := by
  refine ⟨generate_fallback prompt context o h, ?_, mock_response_none prompt⟩
  intro context2
  rw [generate_fallback prompt context o h, generate_fallback prompt context2 o h]

/-- C10 witness: concrete fallback call, evaluated. -/
theorem c10_witness :
    fallsBack GenOutcome.otherException = true ∧
    (generate "hi" (some "professional") GenOutcome.otherException =
        mock_response "hi" none ∧
      (∀ context2 : Option String,
        generate "hi" context2 GenOutcome.otherException =
          generate "hi" (some "professional") GenOutcome.otherException) ∧
      mock_response "hi" none =
        "Sure! 😊 Here’s a simple suggestion to help you move forward. (Mock response — generated without a live LLM.)") :=
  ⟨rfl, c10_theorem "hi" (some "professional") GenOutcome.otherException rfl⟩

/-- C4: the claim says a response with a success status yields the
backend's response field.  The code only treats status 200 that way: a 201
response — a success status — with a present response field still falls
back to the mock text. -/
theorem c4_counterexample :
    isSuccessStatus 201 = true ∧
    generate "hi" none (GenOutcome.response 201 (some (some "hello"))) ≠ "hello" ∧
    generate "hi" none (GenOutcome.response 201 (some (some "hello"))) =
      mock_response "hi" none :=
  ⟨by decide, by decide, by decide⟩

/-- C4 (amended): generate never raises: for every prompt and context, on
any connection failure, any response status other than 200, or any other
exception it returns the deterministic mock string, which ends with the
fallback marker; on a status-200 response it returns the response field
(empty string if the field is absent). -/
theorem c4_theorem (prompt : String) (context : Option String) (o : GenOutcome) :
    (fallsBack o = true →
      generate prompt context o = mock_response prompt none ∧
      ∃ lead, generate prompt context o = lead ++ fallbackMarker) ∧
    (∀ field : Option String, o = GenOutcome.response 200 (some field) →
      generate prompt context o = field.getD "") := by
  constructor
  · intro h
    refine ⟨generate_fallback prompt context o h, mockBase "friendly" ++ " ", ?_⟩
    rw [generate_fallback prompt context o h]
    rfl
  · rintro field rfl
    simp [generate]

/-- C4 witness: the fallback branch at a concrete connection error and the
success branch at a concrete 200 response. -/
theorem c4_witness :
    (generate "hi" none GenOutcome.connectionError = mock_response "hi" none ∧
      ∃ lead, generate "hi" none GenOutcome.connectionError = lead ++ fallbackMarker) ∧
    generate "hi" none (GenOutcome.response 200 (some (some "ok"))) = (some "ok").getD "" :=
  ⟨( c4_theorem "hi" none GenOutcome.connectionError).1 rfl,
   ( c4_theorem "hi" none (GenOutcome.response 200 (some (some "ok")))).2 (some "ok") rfl⟩

/-- C8: the claim says is_available returns true exactly on a success
status.  The code compares the status to 200 only, so a 204 response — a
success status — yields false. -/
theorem c8_counterexample :
    isSuccessStatus 204 = true ∧ is_available (HealthOutcome.response 204) = false := by
  decide

/-- C8 (amended): is_available returns true exactly when the health request
completes with status 200; any exception or any other status yields false,
and the embedded function is total, so the call never raises. -/
theorem c8_theorem (o : HealthOutcome) :
    is_available o = true ↔ o = HealthOutcome.response 200 := by
  cases o with
  | response status => simp [is_available]
  | exception => simp [is_available]

/-- C7: the claim quantifies over every string outside the closed set of
tone names, but construction lowercases first: the string "Professional"
is outside the closed set and still resolves to the professional traits,
which differ from the friendly ones. -/
theorem c7_counterexample :
    ¬ "Professional" ∈ toneNames ∧
    get_traits (create_personality "Professional") ≠
      get_traits (create_personality "friendly") := by
  decide

/-- C7 (amended): for every tone name string whose lowercased form is
outside the closed set {friendly, professional, casual, empathetic,
enthusiastic}, constructing the personality resolves to exactly the same
trait record as the name "friendly" does, silently and without error. -/
theorem c7_theorem (s : String) (h : ¬ pyToLower s ∈ toneNames) :
    create_personality s = PersonalityTone.friendly ∧
    get_traits (create_personality s) = get_traits PersonalityTone.friendly := by
  have h' : parseToneEnum (pyToLower s) = none := by
    simp only [toneNames, List.mem_cons, List.not_mem_nil, or_false, not_or] at h
    obtain ⟨h1, h2, h3, h4, h5⟩ := h
    simp [parseToneEnum, h1, h2, h3, h4, h5]
  exact ⟨by simp [create_personality, h'], by simp [create_personality, h']⟩

/-- C7 witness: the unrecognized name "Formal" resolves to the friendly
traits. -/
theorem c7_witness :
    ¬ pyToLower "Formal" ∈ toneNames ∧
    (create_personality "Formal" = PersonalityTone.friendly ∧
      get_traits (create_personality "Formal") = get_traits PersonalityTone.friendly) :=
  ⟨by decide, c7_theorem "Formal" (by decide)⟩

/-- The length of the last-k slice. -/
theorem lastN_length (k : Nat) (l : List α) : (lastN k l).length = min k l.length := by
  simp only [lastN, List.length_drop]
  omega

/-- When the list is no longer than k, the last-k slice is the whole
list. -/
theorem lastN_of_length_le (k : Nat) (l : List α) (h : l.length ≤ k) : lastN k l = l := by
  unfold lastN
  have h0 : l.length - k = 0 := by omega
  rw [h0, List.drop_zero]

/-- A stripped string is empty exactly when every character is whitespace
(in particular when the string is empty). -/
theorem pyStrip_eq_empty_iff (s : String) :
    pyStrip s = "" ↔ s.toList.all isPySpace = true := by
  have hmk : ∀ L : List Char, String.mk L = "" ↔ L = [] := by
    intro L
    constructor
    · intro h
      have hd : (String.mk L).data = ("" : String).data := by rw [h]
      simpa using hd
    · rintro rfl; rfl
  rw [pyStrip, hmk, List.reverse_eq_nil_iff, List.dropWhile_eq_nil_iff, List.all_eq_true]
  constructor
  · intro h x hx
    rcases List.mem_append.1
        ((List.takeWhile_append_dropWhile (p := isPySpace) (l := s.toList)) ▸ hx) with
      hx' | hx'
    · exact List.mem_takeWhile_imp hx'
    · exact h x (List.mem_reverse.2 hx')
  · intro h x hx
    exact h x ((List.dropWhile_sublist isPySpace).subset (List.mem_reverse.1 hx))

/-- C6: apply_tone with is_greeting prepends the greeting; otherwise empty
or whitespace-only text is returned unchanged and any other text is
wrapped in the tone prefix and suffix; in particular the casual tone turns
"Try restarting." into "Sure thing! Try restarting. 👍". -/
theorem c6_theorem (tone : PersonalityTone) (text : String) :
    apply_tone tone text true = (get_traits tone).greeting ++ " " ++ text ∧
    (text.toList.all isPySpace = true → apply_tone tone text false = text) ∧
    (text.toList.all isPySpace = false →
      apply_tone tone text false =
        (get_traits tone).prefixText ++ text ++ (get_traits tone).suffixText) ∧
    apply_tone PersonalityTone.casual "Try restarting." false =
      "Sure thing! Try restarting. 👍" := by
  refine ⟨rfl, ?_, ?_, by decide⟩
  · intro h
    have h' : pyStrip text = "" := (pyStrip_eq_empty_iff text).2 h
    simp [apply_tone, h']
  · intro h
    have h' : ¬ pyStrip text = "" := by
      intro hc
      have hall := (pyStrip_eq_empty_iff text).1 hc
      rw [h] at hall
      exact Bool.false_ne_true hall
    simp [apply_tone, h']

/-- C6 witness: the whitespace-only case and the decoration case at
concrete inputs. -/
theorem c6_witness :
    " \t".toList.all isPySpace = true ∧
    apply_tone PersonalityTone.friendly " \t" false = " \t" ∧
    ("Try restarting.".toList.all isPySpace = false ∧
      apply_tone PersonalityTone.casual "Try restarting." false =
        (get_traits PersonalityTone.casual).prefixText ++ "Try restarting."
          ++ (get_traits PersonalityTone.casual).suffixText) :=
  ⟨by decide, (c6_theorem PersonalityTone.friendly " \t").2.1 (by decide),
   by decide, (c6_theorem PersonalityTone.casual "Try restarting.").2.2.1 (by decide)⟩

/-- For a positive message count, get_context renders exactly the last n
history entries. -/
theorem get_context_eq (m : ConversationMemory) (n : Nat) (h : 1 ≤ n) :
    m.get_context n = String.intercalate "\n" ((lastN n m.history).map fmtMessage) := by
  have hn : ¬ n = 0 := by omega
  unfold ConversationMemory.get_context
  by_cases he : m.history.isEmpty
  · rw [List.isEmpty_iff] at he
    simp [he, lastN, fmtMessage]
  · simp only [he, Bool.false_eq_true, if_false, pyTakeLast, hn, if_false, lastN, fmtMessage]

/-- C5: the claim says get_context(n) returns the last n messages for
every n, and the empty string when n = 0 would follow; but the Python
slice history[-0:] is the whole list, so get_context(0) on a one-message
history returns that message's line instead of the empty string. -/
theorem c5_counterexample :
    (ConversationMemory.mk 10 [Message.mk "user" "hi" "t"]).get_context 0 = "User: hi" ∧
    ("User: hi" : String) ≠ "" := by
  refine ⟨by decide, by decide⟩

/-- C5 (amended): for every n ≥ 1 and every buffer state, get_context n
returns the last n messages (all of them when the history is shorter),
each formatted as capitalized role, a colon and the content, joined by
newlines oldest-first; on an empty history it returns the empty string. -/
theorem c5_theorem (m : ConversationMemory) (n : Nat) (h : 1 ≤ n) :
    m.get_context n = String.intercalate "\n" ((lastN n m.history).map fmtMessage) ∧
    (m.history = [] → m.get_context n = "") ∧
    (m.history.length ≤ n →
      m.get_context n = String.intercalate "\n" (m.history.map fmtMessage)) := by
  refine ⟨get_context_eq m n h, ?_, ?_⟩
  · intro he
    simp only [ConversationMemory.get_context, he, List.isEmpty_nil, if_true, List.map_nil]
    rfl
  · intro hlen
    rw [get_context_eq m n h, lastN_of_length_le n m.history hlen]

/-- C5 witness: a three-message buffer read with n = 2, and a two-message
buffer read with n = 5. -/
theorem c5_witness :
    (1 : Nat) ≤ 2 ∧
    ((ConversationMemory.mk 10
        [Message.mk "user" "hello" "t1", Message.mk "assistant" "world" "t2",
         Message.mk "user" "again" "t3"]).get_context 2 =
      String.intercalate "\n"
        ((lastN 2 [Message.mk "user" "hello" "t1", Message.mk "assistant" "world" "t2",
          Message.mk "user" "again" "t3"]).map fmtMessage) ∧
      ([Message.mk "user" "hello" "t1", Message.mk "assistant" "world" "t2",
        Message.mk "user" "again" "t3"] = ([] : List Message) →
        (ConversationMemory.mk 10
          [Message.mk "user" "hello" "t1", Message.mk "assistant" "world" "t2",
           Message.mk "user" "again" "t3"]).get_context 2 = "") ∧
      ([Message.mk "user" "hello" "t1", Message.mk "assistant" "world" "t2",
        Message.mk "user" "again" "t3"].length ≤ 2 →
        (ConversationMemory.mk 10
          [Message.mk "user" "hello" "t1", Message.mk "assistant" "world" "t2",
           Message.mk "user" "again" "t3"]).get_context 2 =
          String.intercalate "\n"
            ([Message.mk "user" "hello" "t1", Message.mk "assistant" "world" "t2",
              Message.mk "user" "again" "t3"].map fmtMessage))) :=
  ⟨by decide,
   c5_theorem
     (ConversationMemory.mk 10
       [Message.mk "user" "hello" "t1", Message.mk "assistant" "world" "t2",
        Message.mk "user" "again" "t3"]) 2 (by decide)⟩

/-- Re-slicing after appending to a last-k slice agrees with slicing the
full list: the elements dropped earlier are beyond the window anyway. -/
theorem lastN_append_lastN (k : Nat) (l r : List α) :
    lastN k (lastN k l ++ r) = lastN k (l ++ r) := by
  rcases Nat.le_total k l.length with hk | hk
  · unfold lastN
    rw [List.length_append, List.length_drop, List.length_append]
    rw [List.drop_append_eq_append_drop, List.drop_append_eq_append_drop]
    rw [List.drop_drop, List.length_drop]
    congr 1
    · congr 1
      omega
    · congr 1
      omega
  · have h0 : l.length - k = 0 := Nat.sub_eq_zero_of_le hk
    unfold lastN
    rw [h0, List.drop_zero]

/-- Invariant of the add_message loop: starting from a state whose history
is within the bound, any sequence of add_message calls leaves the history
equal to the last max_history entries of the full appended log, and within
the bound — provided max_history is at least 1 (so that the Python slice
is a genuine truncation). -/
theorem addAll_spec (max : Nat) (hmax : 1 ≤ max) :
    ∀ (msgs : List (String × String × String)) (m : ConversationMemory),
      m.max_history = max → m.history.length ≤ max →
      (addAll m msgs).history = lastN max (m.history ++ msgs.map mkMessage) ∧
      (addAll m msgs).history.length ≤ max := by
  intro msgs
  induction msgs with
  | nil =>
    intro m hm hlen
    refine ⟨?_, by simpa [addAll] using hlen⟩
    simp only [addAll, List.foldl_nil, List.map_nil, List.append_nil]
    exact (lastN_of_length_le max m.history hlen).symm
  | cons x xs ih =>
    intro m hm hlen
    have hne : ¬ max = 0 := by omega
    have hstep : addAll m (x :: xs) = addAll (m.add_message x.1 x.2.1 x.2.2) xs := rfl
    have hmax' : (m.add_message x.1 x.2.1 x.2.2).max_history = max := by
      simp [ConversationMemory.add_message, hm]
    have hhist : (m.add_message x.1 x.2.1 x.2.2).history =
        if max < (m.history ++ [mkMessage x]).length
        then lastN max (m.history ++ [mkMessage x])
        else m.history ++ [mkMessage x] := by
      simp only [ConversationMemory.add_message, hm, pyTakeLast, hne, if_false, lastN,
        mkMessage]
    have hlen' : (m.add_message x.1 x.2.1 x.2.2).history.length ≤ max := by
      rw [hhist]
      split
      · rw [lastN_length]
        omega
      · next hc => omega
    obtain ⟨h1, h2⟩ := ih (m.add_message x.1 x.2.1 x.2.2) hmax' hlen'
    rw [hstep]
    refine ⟨?_, h2⟩
    rw [h1, hhist]
    split
    · rw [lastN_append_lastN]
      simp
    · simp

/-- C2: the claim quantifies over every configured max_history, but with
max_history = 0 the truncation slice history[-0:] keeps the whole list, so
a single add_message already leaves the history longer than the bound. -/
theorem c2_counterexample :
    ((ConversationMemory.mk 0 []).add_message "user" "A" "t1").history =
      [Message.mk "user" "A" "t1"] ∧
    ¬ (((ConversationMemory.mk 0 []).add_message "user" "A" "t1").history.length ≤
        (ConversationMemory.mk 0 []).max_history) :=
  ⟨by decide, by decide⟩

/-- C2 (amended): for every configured max_history ≥ 1 and every sequence
of add_message calls, after each call the history length is at most
max_history and the retained entries are exactly the most recently added
messages in their original insertion order; in particular, with
max_history = 3, adding A, B, C, D, E in order leaves the history equal to
[C, D, E]. -/
theorem c2_theorem :
    (∀ (max : Nat), 1 ≤ max → ∀ msgs : List (String × String × String),
      (addAll (ConversationMemory.mk max []) msgs).history.length ≤ max ∧
      (addAll (ConversationMemory.mk max []) msgs).history =
        lastN max (msgs.map mkMessage)) ∧
    (addAll (ConversationMemory.mk 3 [])
      [("user", "A", "t1"), ("user", "B", "t2"), ("user", "C", "t3"),
       ("user", "D", "t4"), ("user", "E", "t5")]).history =
      [Message.mk "user" "C" "t3", Message.mk "user" "D" "t4",
       Message.mk "user" "E" "t5"] := by
  constructor
  · intro max hmax msgs
    have h := addAll_spec max hmax msgs (ConversationMemory.mk max []) rfl (by simp)
    exact ⟨h.2, by simpa using h.1⟩
  · decide

/-- C2 witness: the invariant evaluated on a concrete two-message run with
bound 3. -/
theorem c2_witness :
    (1 : Nat) ≤ 3 ∧
    ((addAll (ConversationMemory.mk 3 [])
        [("user", "A", "t1"), ("user", "B", "t2")]).history.length ≤ 3 ∧
      (addAll (ConversationMemory.mk 3 [])
        [("user", "A", "t1"), ("user", "B", "t2")]).history =
        lastN 3 ([("user", "A", "t1"), ("user", "B", "t2")].map mkMessage)) :=
  ⟨by decide, c2_theorem.1 3 (by decide) [("user", "A", "t1"), ("user", "B", "t2")]⟩

/-- The topic-collecting foldl of extract_topics is the flat map of the
per-message keyword lists over the user-role messages. -/
theorem topics_foldl_eq (l : List Message) (acc : List String) :
    l.foldl (fun acc msg =>
        if msg.role = "user"
        then acc ++ (pySplit (pyToLower msg.content)).filter (fun w => 5 < w.length)
        else acc) acc =
      acc ++ (l.filter (fun msg => msg.role = "user")).flatMap
        (fun msg => (pySplit (pyToLower msg.content)).filter (fun w => 5 < w.length)) := by
  induction l generalizing acc with
  | nil => simp
  | cons msg ms ih =>
    by_cases hr : msg.role = "user"
    · simp only [List.foldl_cons, hr, if_true]
      rw [ih]
      simp [hr, List.append_assoc]
    · simp only [List.foldl_cons, hr, if_false]
      rw [ih]
      simp [hr]

/-- Unfolded form of extract_topics. -/
theorem extract_topics_eq (m : ConversationMemory) :
    m.extract_topics =
      ((m.history.filter (fun msg => msg.role = "user")).flatMap
        (fun msg => (pySplit (pyToLower msg.content)).filter
          (fun w => 5 < w.length))).dedup.take 5 := by
  unfold ConversationMemory.extract_topics
  rw [topics_foldl_eq]
  simp

/-- C9: the claim says extract_topics tokenizes the content of user
messages, but the code tokenizes the lowercased content: on the user
message "QUANTUMX COMPUTING" the returned topic "quantumx" is not among
the whitespace tokens of the content. -/
theorem c9_counterexample :
    (ConversationMemory.mk 10
        [Message.mk "user" "QUANTUMX COMPUTING" "t"]).extract_topics =
      ["quantumx", "computing"] ∧
    pySplit "QUANTUMX COMPUTING" = ["QUANTUMX", "COMPUTING"] ∧
    ¬ "quantumx" ∈ pySplit "QUANTUMX COMPUTING" :=
  ⟨by decide, by decide, by decide⟩

/-- C9 (amended): extract_topics scans only user-role messages, tokenizes
their lowercased content on whitespace, keeps only tokens longer than 5
characters, deduplicates them (order not guaranteed), and returns at most
5 topics; on a history holding the single user message "Tell me about
quantum computing" it returns a list containing "quantum" and "computing"
and excluding "about", "Tell", and "me". -/
theorem c9_theorem :
    (∀ m : ConversationMemory,
      m.extract_topics.length ≤ 5 ∧
      m.extract_topics.Nodup ∧
      ∀ t, t ∈ m.extract_topics →
        5 < t.length ∧ ∃ msg, msg ∈ m.history ∧ msg.role = "user" ∧
          t ∈ pySplit (pyToLower msg.content)) ∧
    ("quantum" ∈ (ConversationMemory.mk 10
        [Message.mk "user" "Tell me about quantum computing" "t"]).extract_topics ∧
      "computing" ∈ (ConversationMemory.mk 10
        [Message.mk "user" "Tell me about quantum computing" "t"]).extract_topics ∧
      ¬ "about" ∈ (ConversationMemory.mk 10
        [Message.mk "user" "Tell me about quantum computing" "t"]).extract_topics ∧
      ¬ "Tell" ∈ (ConversationMemory.mk 10
        [Message.mk "user" "Tell me about quantum computing" "t"]).extract_topics ∧
      ¬ "me" ∈ (ConversationMemory.mk 10
        [Message.mk "user" "Tell me about quantum computing" "t"]).extract_topics) := by
  constructor
  · intro m
    refine ⟨?_, ?_, ?_⟩
    · rw [extract_topics_eq, List.length_take]
      exact min_le_left _ _
    · rw [extract_topics_eq]
      exact (List.take_sublist _ _).nodup (List.nodup_dedup _)
    · intro t ht
      rw [extract_topics_eq] at ht
      have ht2 := List.dedup_subset _ ((List.take_sublist _ _).subset ht)
      rw [List.mem_flatMap] at ht2
      obtain ⟨msg, hmsg, htok⟩ := ht2
      rw [List.mem_filter] at hmsg htok
      refine ⟨by simpa using htok.2, msg, hmsg.1, by simpa using hmsg.2, htok.1⟩
  · exact ⟨by decide, by decide, by decide, by decide, by decide⟩

/-- C9 witness: the membership consequence evaluated at the scenario
history and the topic "quantum". -/
theorem c9_witness :
    5 < "quantum".length ∧
    ∃ msg, msg ∈ (ConversationMemory.mk 10
        [Message.mk "user" "Tell me about quantum computing" "t"]).history ∧
      msg.role = "user" ∧ "quantum" ∈ pySplit (pyToLower msg.content) :=
  (c9_theorem.1 (ConversationMemory.mk 10
    [Message.mk "user" "Tell me about quantum computing" "t"])).2.2 "quantum" (by decide)

/-- C3: the claim misstates the orchestrator in three ways.  First, the
combined prompt joins the system prompt to the context header with two
newlines, not one: with a one-message history and an echoing generate
function the styled result differs from the claim's single-newline
formula.  Second, generate is not called on every turn: when is_available
is false the orchestrator substitutes a fixed demo placeholder instead of
calling generate.  Third, the raw user message is appended to history
before the context is read, not after the response: a turn starting from
an empty history does not pass the system prompt alone (as the claim's
read-then-append order would give), because the freshly appended user
message already appears in the context. -/
theorem c3_counterexample :
    generate_response PersonalityTone.friendly
        (ConversationMemory.mk 20 [Message.mk "user" "hi" "t1"]) true
        (fun _ c => c) "hi" =
      apply_tone PersonalityTone.friendly
        (get_system_prompt PersonalityTone.friendly ++ "\n\nRecent conversation:\n"
          ++ (ConversationMemory.mk 20 [Message.mk "user" "hi" "t1"]).get_context 5)
        false ∧
    generate_response PersonalityTone.friendly
        (ConversationMemory.mk 20 [Message.mk "user" "hi" "t1"]) true
        (fun _ c => c) "hi" ≠
      apply_tone PersonalityTone.friendly
        (get_system_prompt PersonalityTone.friendly ++ "\nRecent conversation:\n"
          ++ (ConversationMemory.mk 20 [Message.mk "user" "hi" "t1"]).get_context 5)
        false ∧
    generate_response PersonalityTone.friendly
        (ConversationMemory.mk 20 [Message.mk "user" "hi" "t1"]) false
        (fun _ _ => "LLM output") "hi" ≠
      apply_tone PersonalityTone.friendly "LLM output" false ∧
    generate_response PersonalityTone.friendly
        (ConversationMemory.mk 20 [Message.mk "user" "hi" "t1"]) false
        (fun _ _ => "LLM output") "hi" =
      apply_tone PersonalityTone.friendly demoResponse false ∧
    (mainTurn PersonalityTone.friendly (ConversationMemory.mk 20 []) true
        (fun _ c => c) "hi" "t1" "t2").1 ≠
      apply_tone PersonalityTone.friendly (get_system_prompt PersonalityTone.friendly)
        false ∧
    (mainTurn PersonalityTone.friendly (ConversationMemory.mk 20 []) true
        (fun _ c => c) "hi" "t1" "t2").1 =
      apply_tone PersonalityTone.friendly
        (get_system_prompt PersonalityTone.friendly
          ++ "\n\nRecent conversation:\nUser: hi") false :=
  ⟨by decide, by decide, by decide, by decide, by decide, by decide⟩

/-- C3 (amended): on every user turn the orchestrator first appends the
raw user message to history, reads the last 5 history entries as context,
builds the combined prompt as the styler's system prompt + two newlines +
"Recent conversation:" + newline + context (system prompt alone when the
context is empty); when the client reports available it calls
generate(user_input, combined_prompt), otherwise it substitutes the fixed
demo placeholder; it applies apply_tone (non-greeting) to the result and
appends the styled assistant message to history. -/
theorem c3_theorem (tone : PersonalityTone) (mem : ConversationMemory) (available : Bool)
    (llmGen : String → String → String) (userInput ts1 ts2 : String) :
    (mainTurn tone mem available llmGen userInput ts1 ts2).1 =
      apply_tone tone
        (if available then
          llmGen userInput
            (if (mem.add_message "user" userInput ts1).get_context 5 = ""
             then get_system_prompt tone
             else get_system_prompt tone ++ "\n\nRecent conversation:\n"
                    ++ (mem.add_message "user" userInput ts1).get_context 5)
         else demoResponse) false ∧
    (mainTurn tone mem available llmGen userInput ts1 ts2).2 =
      (mem.add_message "user" userInput ts1).add_message "assistant"
        (mainTurn tone mem available llmGen userInput ts1 ts2).1 ts2 :=
  ⟨rfl, rfl⟩

end GuppShupp
